import Mathlib

/-!
Verification of the filter-aggregate-render pipeline of the dashboard
application (src/app.py).  The data model, the dataset loader, the filter
engine, the metric calculator, the aggregation engine and the option
provider are embedded shallowly below; external effects (the SQL query and
the exception that may abort the render callback body) are represented as
`Except` values handed to the corresponding function.
-/

/-- One row of the base dataset (src/app.py: the five required columns). -/
structure Record where
  analisis : Int
  total_po : Int
  ciudad : String
  aliado : String
  region : String
deriving Repr, DecidableEq

/-- A raw query result: its column names and its materialized rows.
Validation in `cargar_datos` inspects only the column names. -/
structure Frame where
  columns : List String
  rows : List Record
deriving Repr, DecidableEq

/-- The in-memory sample records built in the `except` branch of
`cargar_datos` (src/app.py lines 55-61). -/
def sample_data : List Record :=
  [{ analisis := 150, total_po := 1000, ciudad := "Bogotá",
     aliado := "Aliado A", region := "Centro" },
   { analisis := 200, total_po := 1200, ciudad := "Medellín",
     aliado := "Aliado B", region := "Antioquia" },
   { analisis := 180, total_po := 1500, ciudad := "Cali",
     aliado := "Aliado C", region := "Valle" }]

/-- The fallback dataframe `df_backup` (src/app.py line 62). -/
def df_backup : Frame :=
  { columns := ["analisis", "total_po", "ciudad", "aliado", "región"],
    rows := sample_data }

/-- `required_columns` of src/app.py line 40 (note the accented last name). -/
def required_columns : List String :=
  ["analisis", "total_po", "ciudad", "aliado", "región"]

/-- The required-column check of src/app.py line 41:
`required_columns.issubset(set(df.columns))`, on the raw column names. -/
def columnsOk (cols : List String) : Bool :=
  required_columns.all (fun c => cols.contains c)

/-- Column-name cleanup of src/app.py line 46:
`df.columns.str.lower().str.strip()`. -/
def normalizeColumn (c : String) : String :=
  c.toLower.trim

/-- `cargar_datos` (src/app.py lines 14-66).  The primary acquisition
(database connect plus query) is an external effect, passed in as an
`Except`; any raised error — a connection failure or the `ValueError`
raised when required columns are missing — is caught by the single
`except` clause, which returns `df_backup`. -/
def cargar_datos (primary : Except String Frame) : Frame :=
  match primary with
  | .error _ => df_backup
  | .ok fr =>
      if columnsOk fr.columns then
        { columns := fr.columns.map normalizeColumn, rows := fr.rows }
      else
        df_backup

/-- One filter selection: the three dropdown values `ciudad`, `aliado`,
`region` of the callback.  `none` models Python `None`; `some []` models an
emptied multi-select. -/
structure FilterSelection where
  ciudad : Option (List String)
  aliado : Option (List String)
  region : Option (List String)
deriving Repr, DecidableEq

/-- Python truthiness of a dropdown value: `None` and `[]` are falsy. -/
def truthy : Option (List String) → Bool
  | none => false
  | some [] => false
  | some (_ :: _) => true

/-- One `if sel: df = df[df[col].isin(sel)]` step of the callback. -/
def applyDim (sel : Option (List String)) (proj : Record → String)
    (rows : List Record) : List Record :=
  if truthy sel then rows.filter (fun r => (sel.getD []).contains (proj r))
  else rows

/-- The filter block of `actualizar_dashboard` (src/app.py lines 174-180):
`region`, then `ciudad`, then `aliado`. -/
def filtrar (ds : List Record) (f : FilterSelection) : List Record :=
  applyDim f.aliado Record.aliado
    (applyDim f.ciudad Record.ciudad
      (applyDim f.region Record.region ds))

/-- `df_filtrado['analisis'].sum()`. -/
def sumAnalisis (rows : List Record) : Int :=
  (rows.map Record.analisis).sum

/-- `df_filtrado['total_po'].sum()`. -/
def sumTotalPo (rows : List Record) : Int :=
  (rows.map Record.total_po).sum

/-- The guarded percentage of src/app.py line 186:
`(analisis / total_po * 100) if total_po > 0 else 0`. -/
def porcentaje (rows : List Record) : Rat :=
  if 0 < sumTotalPo rows then
    (sumAnalisis rows : Rat) / (sumTotalPo rows : Rat) * 100
  else 0

/-- The distinct values of one dimension, sorted ascending — the key list
a pandas `groupby` (sort=True) produces, and the value list behind
`sorted(df[col].unique())`. -/
def distinctSorted (vals : List String) : List String :=
  List.insertionSort (· ≤ ·) vals.dedup

/-- `df.groupby(col, as_index=False)['analisis'].sum()`: one (key, sum)
pair per distinct value of the dimension present in `rows`, keys sorted
ascending. -/
def groupSum (rows : List Record) (proj : Record → String) :
    List (String × Int) :=
  (distinctSorted (rows.map proj)).map
    (fun v => (v, sumAnalisis (rows.filter (fun r => proj r == v))))

/-- The body of `crear_grafico_porcentaje` (src/app.py lines 273-276):
group by `aliado`, then derive each group's share of the grouped total,
with the whole column set to 0 when the total is not positive. -/
def porcentajePorAliado (rows : List Record) : List (String × Rat) :=
  let grouped := groupSum rows Record.aliado
  let total := (grouped.map Prod.snd).sum
  grouped.map (fun p =>
    (p.1, if 0 < total then (p.2 : Rat) / (total : Rat) * 100 else 0))

/-- The option list of one dropdown (src/app.py lines 200-202):
`sorted(df[col].unique())`, always taken from the unfiltered base `df`. -/
def options (ds : List Record) (proj : Record → String) : List String :=
  distinctSorted (ds.map proj)

/-- The value part of one successful render of `actualizar_dashboard`
(src/app.py lines 171-214): the three metrics, the data of the three
charts, and the three option lists. -/
structure DashboardOutput where
  porcentaje : Rat
  publico_objetivo : Int
  cargas_presenze : Int
  barras : List (String × Int)
  lineas : List (String × Int)
  barras_aliados : List (String × Rat)
  ciudades_options : List String
  aliados_options : List String
  regiones_options : List String
deriving Repr, DecidableEq

/-- The `try` body of `actualizar_dashboard`: filter, metrics, the three
chart aggregations, and the option lists (the latter from the base `df`,
not from `df_filtrado`). -/
def actualizar_dashboard (ds : List Record) (f : FilterSelection) :
    DashboardOutput :=
  let df_filtrado := filtrar ds f
  { porcentaje := porcentaje df_filtrado
    publico_objetivo := sumTotalPo df_filtrado
    cargas_presenze := sumAnalisis df_filtrado
    barras := groupSum df_filtrado Record.ciudad
    lineas := groupSum df_filtrado Record.aliado
    barras_aliados := porcentajePorAliado df_filtrado
    ciudades_options := options ds Record.ciudad
    aliados_options := options ds Record.aliado
    regiones_options := options ds Record.region }

/-- The default render of the `except` branch of `actualizar_dashboard`
(src/app.py line 219): zero metrics, empty figures, empty option lists. -/
def default_render : DashboardOutput :=
  { porcentaje := 0, publico_objetivo := 0, cargas_presenze := 0,
    barras := [], lineas := [], barras_aliados := [],
    ciudades_options := [], aliados_options := [], regiones_options := [] }

/-- The whole callback with its `try`/`except`: the body's outcome is an
`Except` (src/app.py lines 216-219 catch any exception). -/
def actualizar_dashboard_safe (attempt : Except String DashboardOutput) :
    DashboardOutput :=
  match attempt with
  | .ok out => out
  | .error _ => default_render

/-! ### Helper lemmas -/

lemma applyDim_sublist (sel : Option (List String)) (proj : Record → String)
    (rows : List Record) : (applyDim sel proj rows).Sublist rows := by
  unfold applyDim
  split
  · exact List.filter_sublist rows
  · exact List.Sublist.refl rows

lemma filtrar_sublist (ds : List Record) (f : FilterSelection) :
    (filtrar ds f).Sublist ds :=
  ((applyDim_sublist _ _ _).trans (applyDim_sublist _ _ _)).trans
    (applyDim_sublist _ _ _)

lemma applyDim_not_truthy (sel : Option (List String))
    (proj : Record → String) (rows : List Record)
    (h : truthy sel = false) : applyDim sel proj rows = rows := by
  unfold applyDim
  rw [h]
  simp

/-! ### Claim theorems -/

/-- C10: filtering is order-preserving — for every base dataset and every
`FilterSelection`, the filtered view is a sublist (subsequence) of the base
dataset: each record of the view occurs in the base and the relative order
of records is the order of the base. -/
theorem filtrar_is_subsequence (ds : List Record) (f : FilterSelection) :
    (filtrar ds f).Sublist ds :=
  filtrar_sublist ds f

/-- C5: when every `analisis` and every `total_po` value of the base
dataset is non-negative, no `FilterSelection` can increase the totals:
the filtered view's `analyzed_total` and `target_total` are bounded by the
base dataset's. -/
theorem filtrar_totals_le (ds : List Record) (f : FilterSelection)
    (hA : ∀ r ∈ ds, 0 ≤ r.analisis) (hp : ∀ r ∈ ds, 0 ≤ r.total_po) :
    sumAnalisis (filtrar ds f) ≤ sumAnalisis ds ∧
    sumTotalPo (filtrar ds f) ≤ sumTotalPo ds := by
  constructor
  · exact List.Sublist.sum_le_sum
      ((filtrar_sublist ds f).map Record.analisis)
      (by intro a ha
          rcases List.mem_map.mp ha with ⟨r, hr, rfl⟩
          exact hA r hr)
  · exact List.Sublist.sum_le_sum
      ((filtrar_sublist ds f).map Record.total_po)
      (by intro a ha
          rcases List.mem_map.mp ha with ⟨r, hr, rfl⟩
          exact hp r hr)

/-- C5 witness: the bound instantiated on the sample dataset with a
one-city filter. -/
theorem filtrar_totals_le_witness :
    sumAnalisis (filtrar sample_data ⟨some ["Bogotá"], none, none⟩) ≤
      sumAnalisis sample_data ∧
    sumTotalPo (filtrar sample_data ⟨some ["Bogotá"], none, none⟩) ≤
      sumTotalPo sample_data :=
  filtrar_totals_le sample_data ⟨some ["Bogotá"], none, none⟩
    (by decide) (by decide)

/-- C4: a `FilterSelection` in which every dimension's value set is empty
or absent leaves the base dataset unchanged, record for record. -/
theorem filtrar_empty_selection (ds : List Record) (f : FilterSelection)
    (hc : truthy f.ciudad = false) (ha : truthy f.aliado = false)
    (hr : truthy f.region = false) : filtrar ds f = ds := by
  unfold filtrar
  rw [applyDim_not_truthy _ _ _ hr, applyDim_not_truthy _ _ _ hc,
    applyDim_not_truthy _ _ _ ha]

/-- C4 witness: the all-`None` selection and the all-empty-list selection
both leave the sample dataset unchanged. -/
theorem filtrar_empty_selection_witness :
    filtrar sample_data ⟨none, none, none⟩ = sample_data ∧
    filtrar sample_data ⟨some [], some [], some []⟩ = sample_data :=
  ⟨filtrar_empty_selection sample_data ⟨none, none, none⟩ rfl rfl rfl,
   filtrar_empty_selection sample_data ⟨some [], some [], some []⟩ rfl rfl rfl⟩

lemma sum_map_add (l : List String) (f g : String → Int) :
    (l.map (fun v => f v + g v)).sum = (l.map f).sum + (l.map g).sum := by
  induction l with
  | nil => simp
  | cons a l ih => simp only [List.map_cons, List.sum_cons, ih]; ring

lemma sum_if_single (keys : List String) (a : String) (c : Int)
    (hnd : keys.Nodup) (ha : a ∈ keys) :
    (keys.map (fun v => if a = v then c else 0)).sum = c := by
  induction keys with
  | nil => cases ha
  | cons k ks ih =>
    rcases List.nodup_cons.mp hnd with ⟨hk, hks⟩
    simp only [List.map_cons, List.sum_cons]
    rcases List.mem_cons.mp ha with rfl | hmem
    · rw [if_pos rfl]
      have hz : (ks.map (fun v => if a = v then c else 0)).sum = 0 := by
        apply List.sum_eq_zero
        intro x hx
        rcases List.mem_map.mp hx with ⟨v, hv, rfl⟩
        have hne : a ≠ v := fun h => hk (h ▸ hv)
        simp [hne]
      rw [hz]
      ring
    · have hne : a ≠ k := fun h => hk (h ▸ hmem)
      rw [if_neg hne, ih hks hmem]
      ring

lemma sumAnalisis_filter_cons (r : Record) (rest : List Record)
    (p : Record → Bool) :
    sumAnalisis ((r :: rest).filter p)
      = (if p r then r.analisis else 0) + sumAnalisis (rest.filter p) := by
  by_cases h : p r
  · simp [List.filter_cons, h, sumAnalisis]
  · simp [List.filter_cons, h, sumAnalisis]

lemma sum_groupSums_eq (rows : List Record) (proj : Record → String)
    (keys : List String) (hnd : keys.Nodup)
    (hcov : ∀ r ∈ rows, proj r ∈ keys) :
    (keys.map
      (fun v => sumAnalisis (rows.filter (fun r => proj r == v)))).sum
      = sumAnalisis rows := by
  induction rows with
  | nil =>
    simp only [List.filter_nil, sumAnalisis, List.map_nil, List.sum_nil]
    apply List.sum_eq_zero
    intro x hx
    rcases List.mem_map.mp hx with ⟨v, _, rfl⟩
    rfl
  | cons r rest ih =>
    have hcov' : ∀ x ∈ rest, proj x ∈ keys :=
      fun x hx => hcov x (List.mem_cons_of_mem r hx)
    have h1 : (keys.map
        (fun v => sumAnalisis ((r :: rest).filter (fun x => proj x == v)))).sum
        = (keys.map (fun v => (if proj r = v then r.analisis else 0)
            + sumAnalisis (rest.filter (fun x => proj x == v)))).sum := by
      congr 1
      apply List.map_congr_left
      intro v _
      rw [sumAnalisis_filter_cons]
      congr 1
      simp [beq_iff_eq]
    rw [h1, sum_map_add,
      sum_if_single keys (proj r) r.analisis hnd (hcov r (List.mem_cons_self r rest)),
      ih hcov']
    simp [sumAnalisis]

lemma distinctSorted_nodup (vals : List String) :
    (distinctSorted vals).Nodup :=
  ((List.perm_insertionSort _ _).nodup_iff).mpr (List.nodup_dedup vals)

lemma mem_distinctSorted {v : String} {vals : List String} :
    v ∈ distinctSorted vals ↔ v ∈ vals := by
  unfold distinctSorted
  rw [List.mem_insertionSort, List.mem_dedup]

lemma groupSum_fst (rows : List Record) (proj : Record → String) :
    (groupSum rows proj).map Prod.fst = distinctSorted (rows.map proj) := by
  unfold groupSum
  rw [List.map_map]
  exact List.map_id _

lemma groupSum_snd_sum (rows : List Record) (proj : Record → String) :
    ((groupSum rows proj).map Prod.snd).sum = sumAnalisis rows := by
  unfold groupSum
  rw [List.map_map]
  exact sum_groupSums_eq rows proj _
    (distinctSorted_nodup _)
    (fun r hr => mem_distinctSorted.mpr (List.mem_map_of_mem proj hr))

/-- C6: for every base dataset, `FilterSelection` and grouping dimension,
the per-group `analisis` sums of the aggregation over the filtered view add
up to the view's `analyzed_total`, and the grouping keys are exactly (and
without repetition) the distinct values of the dimension present in the
filtered view — a value filtered out entirely yields no zero-valued
group. -/
theorem groupSum_partition (ds : List Record) (f : FilterSelection)
    (proj : Record → String) :
    (((groupSum (filtrar ds f) proj).map Prod.snd).sum
        = sumAnalisis (filtrar ds f)) ∧
    (∀ v, v ∈ (groupSum (filtrar ds f) proj).map Prod.fst ↔
        v ∈ (filtrar ds f).map proj) ∧
    ((groupSum (filtrar ds f) proj).map Prod.fst).Nodup := by
  refine ⟨?_, ?_, ?_⟩
  · exact groupSum_snd_sum (filtrar ds f) proj
  · intro v
    rw [groupSum_fst]
    exact mem_distinctSorted
  · rw [groupSum_fst]
    exact distinctSorted_nodup _

/-- C1: every division in the pipeline is guarded.  The summary percentage
is the ratio times 100 exactly when the filtered `target_total` is
positive and 0 when it is 0; each group share in the
distribution-by-aliado chart is `group_sum / grouped_total * 100` when the
grouped total is positive and 0 when it is 0; and a `FilterSelection`
producing an empty view yields metrics (0, 0, 0) and empty aggregation
results (the recompute is a total function, so it runs without error). -/
theorem division_guards (ds : List Record) (f : FilterSelection) :
    (0 < sumTotalPo (filtrar ds f) →
      (actualizar_dashboard ds f).porcentaje
        = (sumAnalisis (filtrar ds f) : Rat)
            / (sumTotalPo (filtrar ds f) : Rat) * 100) ∧
    (sumTotalPo (filtrar ds f) = 0 →
      (actualizar_dashboard ds f).porcentaje = 0) ∧
    (0 < ((groupSum (filtrar ds f) Record.aliado).map Prod.snd).sum →
      (actualizar_dashboard ds f).barras_aliados
        = (groupSum (filtrar ds f) Record.aliado).map (fun p =>
            (p.1, (p.2 : Rat)
              / (((groupSum (filtrar ds f) Record.aliado).map Prod.snd).sum
                  : Rat) * 100))) ∧
    (((groupSum (filtrar ds f) Record.aliado).map Prod.snd).sum = 0 →
      (actualizar_dashboard ds f).barras_aliados
        = (groupSum (filtrar ds f) Record.aliado).map
            (fun p => (p.1, (0 : Rat)))) ∧
    (filtrar ds f = [] →
      (actualizar_dashboard ds f).porcentaje = 0 ∧
      (actualizar_dashboard ds f).publico_objetivo = 0 ∧
      (actualizar_dashboard ds f).cargas_presenze = 0 ∧
      (actualizar_dashboard ds f).barras = [] ∧
      (actualizar_dashboard ds f).lineas = [] ∧
      (actualizar_dashboard ds f).barras_aliados = []) := by
  refine ⟨?_, ?_, ?_, ?_, ?_⟩
  · intro h
    simp [actualizar_dashboard, porcentaje, h]
  · intro h
    simp [actualizar_dashboard, porcentaje, h]
  · intro h
    simp only [actualizar_dashboard, porcentajePorAliado]
    simp [h]
  · intro h
    simp only [actualizar_dashboard, porcentajePorAliado]
    rw [h]
    simp
  · intro h
    rw [actualizar_dashboard, h]
    simp [porcentaje, sumAnalisis, sumTotalPo, groupSum, porcentajePorAliado,
      distinctSorted, options]

/-- C1 witness: on the sample dataset the unfiltered totals are positive,
so both positive-denominator branches fire, while a region value absent
from the dataset empties the view, fires both zero-denominator guards and
yields zero metrics and empty aggregations. -/
theorem division_guards_witness :
    0 < sumTotalPo (filtrar sample_data ⟨none, none, none⟩) ∧
    (actualizar_dashboard sample_data ⟨none, none, none⟩).porcentaje
      = (sumAnalisis (filtrar sample_data ⟨none, none, none⟩) : Rat)
          / (sumTotalPo (filtrar sample_data ⟨none, none, none⟩) : Rat)
          * 100 ∧
    0 < ((groupSum (filtrar sample_data ⟨none, none, none⟩)
          Record.aliado).map Prod.snd).sum ∧
    (actualizar_dashboard sample_data ⟨none, none, none⟩).barras_aliados
      = (groupSum (filtrar sample_data ⟨none, none, none⟩)
          Record.aliado).map (fun p =>
            (p.1, (p.2 : Rat)
              / (((groupSum (filtrar sample_data ⟨none, none, none⟩)
                    Record.aliado).map Prod.snd).sum : Rat) * 100)) ∧
    sumTotalPo (filtrar sample_data ⟨none, none, some ["NoSuchRegion"]⟩)
      = 0 ∧
    (actualizar_dashboard sample_data
        ⟨none, none, some ["NoSuchRegion"]⟩).porcentaje = 0 ∧
    ((groupSum (filtrar sample_data ⟨none, none, some ["NoSuchRegion"]⟩)
        Record.aliado).map Prod.snd).sum = 0 ∧
    (actualizar_dashboard sample_data
        ⟨none, none, some ["NoSuchRegion"]⟩).barras_aliados
      = (groupSum (filtrar sample_data ⟨none, none, some ["NoSuchRegion"]⟩)
          Record.aliado).map (fun p => (p.1, (0 : Rat))) ∧
    ((actualizar_dashboard sample_data
        ⟨none, none, some ["NoSuchRegion"]⟩).porcentaje = 0 ∧
     (actualizar_dashboard sample_data
        ⟨none, none, some ["NoSuchRegion"]⟩).publico_objetivo = 0 ∧
     (actualizar_dashboard sample_data
        ⟨none, none, some ["NoSuchRegion"]⟩).cargas_presenze = 0 ∧
     (actualizar_dashboard sample_data
        ⟨none, none, some ["NoSuchRegion"]⟩).barras = [] ∧
     (actualizar_dashboard sample_data
        ⟨none, none, some ["NoSuchRegion"]⟩).lineas = [] ∧
     (actualizar_dashboard sample_data
        ⟨none, none, some ["NoSuchRegion"]⟩).barras_aliados = []) := by
  have h1 : 0 < sumTotalPo (filtrar sample_data ⟨none, none, none⟩) := by
    decide
  have h3 : 0 < ((groupSum (filtrar sample_data ⟨none, none, none⟩)
      Record.aliado).map Prod.snd).sum := by
    rw [groupSum_snd_sum]
    decide
  have h2 : sumTotalPo
      (filtrar sample_data ⟨none, none, some ["NoSuchRegion"]⟩) = 0 := by
    decide
  have h4 : ((groupSum
      (filtrar sample_data ⟨none, none, some ["NoSuchRegion"]⟩)
      Record.aliado).map Prod.snd).sum = 0 := by
    rw [groupSum_snd_sum]
    decide
  have hv : filtrar sample_data ⟨none, none, some ["NoSuchRegion"]⟩
      = ([] : List Record) := by decide
  have ha := division_guards sample_data ⟨none, none, none⟩
  have hb := division_guards sample_data ⟨none, none, some ["NoSuchRegion"]⟩
  exact ⟨h1, ha.1 h1, h3, ha.2.2.1 h3, h2, hb.2.1 h2, h4, hb.2.2.2.1 h4,
    hb.2.2.2.2 hv⟩

/-- C7: the three option lists of a recompute are computed from the
unfiltered base dataset only: they are identical across all filter
selections, each equals the sorted list of distinct values of its
dimension in the base dataset, and every `options` list is sorted
ascending, duplicate-free and complete (it contains exactly the values
present in the base dataset). -/
theorem options_invariant (ds : List Record) (f g : FilterSelection)
    (proj : Record → String) :
    ((actualizar_dashboard ds f).ciudades_options
        = (actualizar_dashboard ds g).ciudades_options ∧
     (actualizar_dashboard ds f).aliados_options
        = (actualizar_dashboard ds g).aliados_options ∧
     (actualizar_dashboard ds f).regiones_options
        = (actualizar_dashboard ds g).regiones_options) ∧
    ((actualizar_dashboard ds f).ciudades_options
        = options ds Record.ciudad ∧
     (actualizar_dashboard ds f).aliados_options
        = options ds Record.aliado ∧
     (actualizar_dashboard ds f).regiones_options
        = options ds Record.region) ∧
    List.Sorted (· ≤ ·) (options ds proj) ∧
    (options ds proj).Nodup ∧
    (∀ v, v ∈ options ds proj ↔ v ∈ ds.map proj) := by
  refine ⟨⟨rfl, rfl, rfl⟩, ⟨rfl, rfl, rfl⟩, ?_, ?_, ?_⟩
  · exact List.sorted_insertionSort _ _
  · exact distinctSorted_nodup _
  · intro v
    exact mem_distinctSorted

/-- C2 counterexample: the required-column check runs before any
normalization and compares raw names, so a result set that contains the
five required columns only up to case or whitespace — or with the
unaccented spelling of the region column — is rejected and the loader
falls back to `df_backup`. -/
theorem required_check_rejects_case_variants :
    columnsOk ["analisis", "total_po", "ciudad", "aliado", "region"]
      = false ∧
    columnsOk ["ANALISIS", "total_po", "ciudad", "aliado", "región"]
      = false ∧
    columnsOk [" analisis ", "total_po", "ciudad", "aliado", "región"]
      = false ∧
    cargar_datos (.ok
      { columns := ["ANALISIS", "total_po", "ciudad", "aliado", "región"],
        rows := [] }) = df_backup := by
  refine ⟨by decide, by decide, by decide, ?_⟩
  rw [cargar_datos]
  norm_num [show columnsOk
    ["ANALISIS", "total_po", "ciudad", "aliado", "región"] = false
    from by decide]

/-- C2 amended: the check requires the exact raw names
`analisis, total_po, ciudad, aliado, región` (lower-case, accented,
untrimmed) to be present verbatim; on the accepting path the column names
are then lower-cased and trimmed, and a failing check makes the loader
return the fallback frame. -/
theorem required_check_exact_match (cols : List String) (fr : Frame) :
    (columnsOk cols = true ↔ ∀ c ∈ required_columns, c ∈ cols) ∧
    (columnsOk fr.columns = true →
      cargar_datos (.ok fr)
        = { columns := fr.columns.map normalizeColumn, rows := fr.rows }) ∧
    (columnsOk fr.columns = false → cargar_datos (.ok fr) = df_backup) := by
  refine ⟨?_, ?_, ?_⟩
  · simp [columnsOk, List.all_eq_true]
  · intro h
    rw [cargar_datos]
    simp [h]
  · intro h
    rw [cargar_datos]
    simp [h]

/-- C2 amended witness: a frame with the exact raw names passes and is
normalized; the claim's own unaccented column set makes the loader fall
back. -/
theorem required_check_exact_match_witness :
    (columnsOk ["analisis", "total_po", "ciudad", "aliado", "región"] = true
      ↔ ∀ c ∈ required_columns,
          c ∈ ["analisis", "total_po", "ciudad", "aliado", "región"]) ∧
    cargar_datos (.ok
      { columns := ["Extra", "analisis", "total_po", "ciudad", "aliado",
                    "región"],
        rows := [] })
      = { columns := ["Extra", "analisis", "total_po", "ciudad", "aliado",
                      "región"].map normalizeColumn,
          rows := [] } ∧
    cargar_datos (.ok
      { columns := [" Analisis", "total_po", "ciudad", "aliado", "región"],
        rows := [] }) = df_backup :=
  ⟨(required_check_exact_match
      ["analisis", "total_po", "ciudad", "aliado", "región"]
      { columns := [], rows := [] }).1,
   (required_check_exact_match []
      { columns := ["Extra", "analisis", "total_po", "ciudad", "aliado",
                    "región"],
        rows := [] }).2.1 (by decide),
   (required_check_exact_match []
      { columns := [" Analisis", "total_po", "ciudad", "aliado", "región"],
        rows := [] }).2.2 (by decide)⟩

/-- C3 counterexample: on the three-record base dataset the unfiltered
percentage is 530/37 ≈ 14.32, not ≈ 8.97 — the claimed value contradicts
the claim's own formula (150+200+180)/(1000+1200+1500)·100. -/
theorem scenario_percentage_not_897 :
    (actualizar_dashboard sample_data ⟨none, none, none⟩).porcentaje
        ≠ 897 / 100 ∧
    14 < (actualizar_dashboard sample_data ⟨none, none, none⟩).porcentaje := by
  have h : (actualizar_dashboard sample_data ⟨none, none, none⟩).porcentaje
      = 530 / 37 := by
    norm_num [actualizar_dashboard, filtrar, applyDim, truthy, porcentaje,
      sumAnalisis, sumTotalPo, sample_data]
  rw [h]
  norm_num

/-- C3 amended: for the base dataset of records (150, 1000), (200, 1200),
(180, 1500) the unfiltered recompute yields
percentage = (150+200+180)/(1000+1200+1500)·100 = 530/37 ≈ 14.32,
target_total = 3700 and analyzed_total = 530. -/
theorem scenario_unfiltered_metrics :
    (actualizar_dashboard sample_data ⟨none, none, none⟩).porcentaje
        = 530 / 37 ∧
    (actualizar_dashboard sample_data ⟨none, none, none⟩).publico_objetivo
        = 3700 ∧
    (actualizar_dashboard sample_data ⟨none, none, none⟩).cargas_presenze
        = 530 := by
  refine ⟨?_, by decide, by decide⟩
  norm_num [actualizar_dashboard, filtrar, applyDim, truthy, porcentaje,
    sumAnalisis, sumTotalPo, sample_data]

/-- C8: the render callback never propagates a failure of its body — on
any error it returns the safe default render, whose metrics are zero and
whose chart data and option lists are empty — while a successful body's
output is passed through unchanged. -/
theorem callback_error_safe_default (e : String) :
    actualizar_dashboard_safe (.error e) = default_render ∧
    (∀ out, actualizar_dashboard_safe (.ok out) = out) ∧
    default_render.porcentaje = 0 ∧
    default_render.publico_objetivo = 0 ∧
    default_render.cargas_presenze = 0 ∧
    default_render.barras = [] ∧
    default_render.lineas = [] ∧
    default_render.barras_aliados = [] ∧
    default_render.ciudades_options = [] ∧
    default_render.aliados_options = [] ∧
    default_render.regiones_options = [] :=
  ⟨rfl, fun _ => rfl, rfl, rfl, rfl, rfl, rfl, rfl, rfl, rfl, rfl⟩

/-- C9: the dataset loader is a total function to a `Frame`: any primary
acquisition error and any validation failure yields the fallback frame
instead of propagating, and every run ends in either the fallback frame or
a schema-valid normalized frame (the in-memory fallback itself cannot
fail, so no fatal condition is reachable inside the loader). -/
theorem cargar_datos_never_fails (primary : Except String Frame)
    (e : String) (fr : Frame) :
    (cargar_datos (.error e) = df_backup) ∧
    (columnsOk fr.columns = false → cargar_datos (.ok fr) = df_backup) ∧
    (cargar_datos primary = df_backup ∨
      ∃ fr', primary = .ok fr' ∧ columnsOk fr'.columns = true ∧
        cargar_datos primary
          = { columns := fr'.columns.map normalizeColumn,
              rows := fr'.rows }) := by
  refine ⟨rfl, ?_, ?_⟩
  · intro h
    rw [cargar_datos]
    simp [h]
  · match primary with
    | .error _ => exact Or.inl rfl
    | .ok fr' =>
        by_cases h : columnsOk fr'.columns
        · refine Or.inr ⟨fr', rfl, h, ?_⟩
          rw [cargar_datos]
          simp [h]
        · refine Or.inl ?_
          rw [cargar_datos]
          simp [h]

/-- C9 witness: a connection error and a schema failure both produce the
fallback frame. -/
theorem cargar_datos_never_fails_witness :
    cargar_datos (.error "connection refused") = df_backup ∧
    cargar_datos (.ok { columns := ["foo"], rows := [] }) = df_backup :=
  ⟨(cargar_datos_never_fails (.error "connection refused")
      "connection refused" { columns := ["foo"], rows := [] }).1,
   (cargar_datos_never_fails (.error "x") "x"
      { columns := ["foo"], rows := [] }).2.1 (by decide)⟩
